import Mathlib

/-!
Shallow embedding of `sdnotify/__init__.py` (python-sdnotify, version 0.4.0-rc).

Modelling conventions:
* Python `str` values are `List Char`; `bytes` values are `List Nat`
  (one `Nat` per byte), produced by the `utf8` encoder below, which models
  Python's `str.encode()`.
* The environment visible to the module is an `Env`: the value of the
  `NOTIFY_SOCKET` environment variable, whether `sock.connect` raises for the
  resolved address, whether `sock.sendall` raises on a connected socket, and
  the current reading of `time.clock_gettime_ns(time.CLOCK_MONOTONIC)`.
  Creation of the `AF_UNIX` datagram socket itself
  (`socket.socket(AF_UNIX, SOCK_DGRAM | SOCK_CLOEXEC)`) is modelled as total:
  on the supported platform it does not fail, and the source performs it
  outside any exception handler.
* A raised Python exception is an `Err` value; `SystemdNotifier.init` returns
  `Except Err SystemdNotifier` (a raising `__init__` discards the instance),
  and `SystemdNotifier.notify` returns a `NotifyResult` carrying the possibly
  raised error, the state of the object after the call, and the list of
  datagrams transmitted during the call.
* `sendall` on a datagram socket whose `connect` earlier failed (peer not set)
  raises `ENOTCONN`; this is modelled by treating a send on a socket with
  `peer = none` as a send failure.
-/

/-- Exceptions raised by the source: `OSError(EAFNOSUPPORT, "Unsupported
socket type")`, `ValueError("notify() requires a message")`, the exception
propagating out of `sock.connect`, and the exception propagating out of
`sock.sendall`. -/
inductive Err where
  | unsupportedAddressKind
  | emptyMessage
  | connectFailure
  | sendFailure
deriving Repr, DecidableEq

/-- An `AF_UNIX` `SOCK_DGRAM` socket object: `peer` is the address bound by a
successful `connect`, or `none` for a socket whose `connect` never
succeeded. -/
structure Sock where
  peer : Option (List Char)
deriving Repr, DecidableEq

/-- The environment of one run: `NOTIFY_SOCKET` (absent = `none`), whether
`connect` to the resolved address raises, whether `sendall` on a connected
socket raises, and the monotonic-clock reading in nanoseconds. -/
structure Env where
  notifySocket : Option (List Char)
  connectFails : Bool
  sendFails : Bool
  monotonicNs : Nat
deriving Repr, DecidableEq

/-- UTF-8 encoding of one character (the byte sequence `str.encode()` emits
for one code point). -/
def utf8Char (c : Char) : List Nat :=
  let n := c.toNat
  if n < 0x80 then [n]
  else if n < 0x800 then [0xC0 + n / 64, 0x80 + n % 64]
  else if n < 0x10000 then
    [0xE0 + n / 4096, 0x80 + n / 64 % 64, 0x80 + n % 64]
  else
    [0xF0 + n / 262144, 0x80 + n / 4096 % 64, 0x80 + n / 64 % 64, 0x80 + n % 64]

/-- UTF-8 encoding of a string, modelling Python's `str.encode()`. -/
def utf8 : List Char → List Nat
  | [] => []
  | c :: cs => utf8Char c ++ utf8 cs

/-- State of a `SystemdNotifier` instance. `debug`, `sock`, `socket_path` and
`version` are the attributes set by `__init__`; `socket` models the distinct
attribute assigned by the line `self.socket = None` in the `except` branch
(`none` = attribute never assigned, `some none` = assigned the value
`None`). -/
structure SystemdNotifier where
  debug : Bool
  sock : Option Sock
  socket_path : Option (List Char)
  socket : Option (Option Sock)
  version : List Char
deriving Repr, DecidableEq

/-- Abstract-socket handling from `__init__` (lines 46-48): a leading `@` is
replaced by a NUL byte, any other string is left unchanged. -/
def resolveNotifySocket (p : List Char) : List Char :=
  if p.head? = some '@' then '\x00' :: p.tail else p

/-- `SystemdNotifier.__init__(debug)`: reads `NOTIFY_SOCKET`, validates the
leading character, resolves an abstract address, creates the datagram socket
and connects it. A `connect` failure sets the attribute `socket` (not `sock`)
to `None` and re-raises only when `debug` is set. -/
def SystemdNotifier.init (env : Env) (debug : Bool) : Except Err SystemdNotifier :=
  let st : SystemdNotifier :=
    { debug := debug
      sock := none
      socket_path := env.notifySocket
      socket := none
      version := "0.4.0-rc".data }
  match env.notifySocket with
  | none => .ok st
  | some [] => .ok st
  | some (c :: rest) =>
    if c ≠ '/' ∧ c ≠ '@' then
      .error .unsupportedAddressKind
    else
      let path := resolveNotifySocket (c :: rest)
      let st := { st with socket_path := some path, sock := some { peer := none } }
      if env.connectFails then
        if debug then .error .connectFailure
        else .ok { st with socket := some none }
      else
        .ok { st with sock := some { peer := some path } }

/-- Outcome of one call to `notify` (or to a helper built on it): the raised
exception if any, the state of the object after the call, and the datagrams
transmitted. -/
structure NotifyResult where
  err : Option Err
  state : SystemdNotifier
  sent : List (List Nat)
deriving Repr, DecidableEq

/-- `SystemdNotifier.notify(message)`: raises `ValueError` on an empty
message; returns silently when `sock` is `None`; otherwise performs one
`sendall`, whose failure is re-raised only when `debug` is set. -/
def SystemdNotifier.notify (st : SystemdNotifier) (env : Env) (message : List Nat) :
    NotifyResult :=
  if message = [] then
    { err := some .emptyMessage, state := st, sent := [] }
  else
    match st.sock with
    | none => { err := none, state := st, sent := [] }
    | some s =>
      if s.peer = none ∨ env.sendFails then
        if st.debug then { err := some .sendFailure, state := st, sent := [] }
        else { err := none, state := st, sent := [] }
      else
        { err := none, state := st, sent := [message] }

/-- `ready()`: sends `b"READY=1"`. -/
def SystemdNotifier.ready (st : SystemdNotifier) (env : Env) : NotifyResult :=
  st.notify env (utf8 "READY=1".data)

/-- `reloading()`: reads the monotonic clock in nanoseconds, floor-divides by
1000, and sends `RELOADING=1\nMONOTONIC_USEC={microsecs}` encoded as
UTF-8. -/
def SystemdNotifier.reloading (st : SystemdNotifier) (env : Env) : NotifyResult :=
  let microsecs := env.monotonicNs / 1000
  st.notify env (utf8 ("RELOADING=1\nMONOTONIC_USEC=".data ++ (Nat.repr microsecs).data))

/-- `stopping()`: sends `b"STOPPING=1"`. -/
def SystemdNotifier.stopping (st : SystemdNotifier) (env : Env) : NotifyResult :=
  st.notify env (utf8 "STOPPING=1".data)

/-- `status(message)`: sends `STATUS={message}` encoded as UTF-8. -/
def SystemdNotifier.status (st : SystemdNotifier) (env : Env) (message : List Char) :
    NotifyResult :=
  st.notify env (utf8 ("STATUS=".data ++ message))

/-- `errno(errno)`: sends `ERRNO={errno}` encoded as UTF-8 (Python `str(int)`
is decimal with a leading minus sign for negatives, as is `Int.repr`). -/
def SystemdNotifier.errno (st : SystemdNotifier) (env : Env) (e : Int) : NotifyResult :=
  st.notify env (utf8 ("ERRNO=".data ++ (Int.repr e).data))

/-- `exit_status(exit_code)`: sends `EXIT_STATUS={exit_code}`. -/
def SystemdNotifier.exit_status (st : SystemdNotifier) (env : Env) (exit_code : Int) :
    NotifyResult :=
  st.notify env (utf8 ("EXIT_STATUS=".data ++ (Int.repr exit_code).data))

/-- `mainpid(pid)`: sends `MAINPID={pid}`. -/
def SystemdNotifier.mainpid (st : SystemdNotifier) (env : Env) (pid : Int) : NotifyResult :=
  st.notify env (utf8 ("MAINPID=".data ++ (Int.repr pid).data))

/-- `wd_ping()`: sends `b"WATCHDOG=1"`. -/
def SystemdNotifier.wd_ping (st : SystemdNotifier) (env : Env) : NotifyResult :=
  st.notify env (utf8 "WATCHDOG=1".data)

/-- `wd_trigger()`: sends `b"WATCHDOG=trigger"`. -/
def SystemdNotifier.wd_trigger (st : SystemdNotifier) (env : Env) : NotifyResult :=
  st.notify env (utf8 "WATCHDOG=trigger".data)

/-- `wd_usec(usec)`: sends `WATCHDOG_USEC={usec}`. -/
def SystemdNotifier.wd_usec (st : SystemdNotifier) (env : Env) (usec : Int) : NotifyResult :=
  st.notify env (utf8 ("WATCHDOG_USEC=".data ++ (Int.repr usec).data))

/-- `extend_timeout(usec)`: sends `EXTEND_TIMEOUT_USEC={usec}`. -/
def SystemdNotifier.extend_timeout (st : SystemdNotifier) (env : Env) (usec : Int) :
    NotifyResult :=
  st.notify env (utf8 ("EXTEND_TIMEOUT_USEC=".data ++ (Int.repr usec).data))

/-- The names of the methods defined on the `SystemdNotifier` class, in source
order. The class defines no other method. -/
def SystemdNotifier.methodNames : List String :=
  ["__init__", "notify", "ready", "reloading", "stopping", "status", "errno",
   "exit_status", "mainpid", "wd_ping", "wd_trigger", "wd_usec", "extend_timeout"]

/-- The module-level statement `sd_notify = SystemdNotifier()` executed when
the module is imported: a construction with the default `debug=False`. -/
def sd_notify (env : Env) : Except Err SystemdNotifier :=
  SystemdNotifier.init env false

/-! ### Helper lemmas -/

lemma utf8Char_ne_nil (c : Char) : utf8Char c ≠ [] := by
  unfold utf8Char
  dsimp only
  split
  · simp
  split
  · simp
  split <;> simp

lemma utf8_ne_nil {s : List Char} (h : s ≠ []) : utf8 s ≠ [] := by
  cases s with
  | nil => exact absurd rfl h
  | cons c cs =>
    show utf8Char c ++ utf8 cs ≠ []
    intro hc
    exact utf8Char_ne_nil c (List.append_eq_nil.mp hc).1

lemma utf8_append (s t : List Char) : utf8 (s ++ t) = utf8 s ++ utf8 t := by
  induction s with
  | nil => rfl
  | cons c cs ih =>
    show utf8Char c ++ utf8 (cs ++ t) = (utf8Char c ++ utf8 cs) ++ utf8 t
    rw [ih, List.append_assoc]

lemma append_left_ne_nil {α : Type} {s t : List α} (h : s ≠ []) : s ++ t ≠ [] := by
  intro hc
  exact h (List.append_eq_nil.mp hc).1

/-- On an object whose `sock` attribute is `None`, `notify` with a non-empty
message returns at the `if not self.sock` guard: no error, no transmission,
state unchanged. -/
lemma notify_unconnected (st : SystemdNotifier) (env : Env) (m : List Nat)
    (hs : st.sock = none) (hm : m ≠ []) :
    st.notify env m = { err := none, state := st, sent := [] } := by
  unfold SystemdNotifier.notify
  rw [hs]
  simp [hm]

/-- `__init__` on an address whose first character is neither `/` nor `@`
raises unconditionally: the `raise OSError(...)` on line 44 is not inside any
exception handler and is not guarded by `debug`. -/
lemma init_bad_kind (env : Env) (c : Char) (rest : List Char) (debug : Bool)
    (haddr : env.notifySocket = some (c :: rest)) (h1 : c ≠ '/') (h2 : c ≠ '@') :
    SystemdNotifier.init env debug = .error .unsupportedAddressKind := by
  unfold SystemdNotifier.init
  rw [haddr]
  simp [h1, h2]

/-- `__init__` with no (or an empty) `NOTIFY_SOCKET` value returns the base
state, whose `sock` is `None`. -/
lemma init_no_addr (env : Env) (debug : Bool)
    (haddr : env.notifySocket = none ∨ env.notifySocket = some []) :
    SystemdNotifier.init env debug =
      .ok { debug := debug, sock := none, socket_path := env.notifySocket,
            socket := none, version := "0.4.0-rc".data } := by
  rcases haddr with h | h <;>
    (unfold SystemdNotifier.init; rw [h])

/-- `__init__` with `debug=False` on an address with a supported leading
character always succeeds: a connect failure is swallowed. -/
lemma init_nodebug_ok (env : Env) (c : Char) (rest : List Char)
    (haddr : env.notifySocket = some (c :: rest)) (hc : c = '/' ∨ c = '@') :
    ∃ st, SystemdNotifier.init env false = .ok st := by
  unfold SystemdNotifier.init
  rw [haddr]
  have h1 : ¬(c ≠ '/' ∧ c ≠ '@') := by
    rcases hc with h | h <;> simp [h]
  simp only [h1, if_false]
  cases henv : env.connectFails <;> simp

/-! ### Claims -/

/-- C1 counterexample: for the address `"x"` (first character neither `/` nor
`@`), construction with `debugMode=false` raises `UnsupportedAddressKind`,
refuting the claim that it raises no error and yields an `Unconnected`
client. -/
theorem c1_counterexample :
    SystemdNotifier.init
      { notifySocket := some ['x'], connectFails := false, sendFails := false,
        monotonicNs := 0 } false
      = .error .unsupportedAddressKind := rfl

/-- C1 (amended): for every channel address whose first character is neither
`/` nor `@`, construction raises `UnsupportedAddressKind` regardless of
`debugMode`. -/
theorem c1_unsupported_address_raises_always (env : Env) (c : Char) (rest : List Char)
    (debug : Bool) (haddr : env.notifySocket = some (c :: rest))
    (h1 : c ≠ '/') (h2 : c ≠ '@') :
    SystemdNotifier.init env debug = .error .unsupportedAddressKind :=
  init_bad_kind env c rest debug haddr h1 h2

/-- C1 witness: the amended claim at the address `"x"` with `debugMode=true`. -/
theorem c1_witness :
    SystemdNotifier.init
      { notifySocket := some ['x'], connectFails := false, sendFails := false,
        monotonicNs := 0 } true
      = .error .unsupportedAddressKind :=
  c1_unsupported_address_raises_always _ 'x' [] true rfl (by decide) (by decide)

/-- C2 code bug: with address `"/nonexistent"` and a failing connect, the
`except` branch executes `self.socket = None` instead of `self.sock = None`,
so the constructed client (with `debug=False`) still holds the unconnected
socket object in `sock`; the connection field is not absent as the claim and
the source's own naming intend. -/
theorem c2_connect_failure_leaves_sock_set :
    SystemdNotifier.init
      { notifySocket := some "/nonexistent".data, connectFails := true,
        sendFails := false, monotonicNs := 0 } false
      = .ok { debug := false, sock := some { peer := none },
              socket_path := some "/nonexistent".data, socket := some none,
              version := "0.4.0-rc".data } := rfl

/-- C3: on every client state and every environment, `notify` with an empty
payload raises `EmptyMessage`, transmits nothing, and leaves the state
unchanged. -/
theorem c3_empty_message_always_raises (st : SystemdNotifier) (env : Env) :
    st.notify env [] = { err := some .emptyMessage, state := st, sent := [] } := by
  unfold SystemdNotifier.notify
  simp

/-- C4: a client built with an absent or empty `NOTIFY_SOCKET` (any `debug`)
has `sock = None`, and `notify` with any non-empty message as well as every
high-level helper returns with no error, no transmission, and the state
unchanged. -/
theorem c4_unconnected_noop (env env2 : Env) (debug : Bool) (st : SystemdNotifier)
    (haddr : env.notifySocket = none ∨ env.notifySocket = some [])
    (hinit : SystemdNotifier.init env debug = .ok st)
    (m : List Nat) (hm : m ≠ []) (txt : List Char) (k : Int) :
    st.sock = none ∧
    st.notify env2 m = { err := none, state := st, sent := [] } ∧
    st.ready env2 = { err := none, state := st, sent := [] } ∧
    st.reloading env2 = { err := none, state := st, sent := [] } ∧
    st.stopping env2 = { err := none, state := st, sent := [] } ∧
    st.status env2 txt = { err := none, state := st, sent := [] } ∧
    st.errno env2 k = { err := none, state := st, sent := [] } ∧
    st.exit_status env2 k = { err := none, state := st, sent := [] } ∧
    st.mainpid env2 k = { err := none, state := st, sent := [] } ∧
    st.wd_ping env2 = { err := none, state := st, sent := [] } ∧
    st.wd_trigger env2 = { err := none, state := st, sent := [] } ∧
    st.wd_usec env2 k = { err := none, state := st, sent := [] } ∧
    st.extend_timeout env2 k = { err := none, state := st, sent := [] } := by
  rw [init_no_addr env debug haddr] at hinit
  injection hinit with hinit
  have hsock : st.sock = none := by rw [← hinit]
  refine ⟨hsock, notify_unconnected st env2 m hsock hm, ?_, ?_, ?_, ?_, ?_, ?_, ?_, ?_, ?_, ?_, ?_⟩ <;>
    first
      | exact notify_unconnected st env2 _ hsock (utf8_ne_nil (by decide))
      | exact notify_unconnected st env2 _ hsock (utf8_ne_nil (append_left_ne_nil (by decide)))

/-- C4 witness: the no-op behaviour of `ready` on the client constructed with
no `NOTIFY_SOCKET`. -/
theorem c4_witness :
    ({ debug := false, sock := none, socket_path := none, socket := none,
       version := "0.4.0-rc".data } : SystemdNotifier).ready
      { notifySocket := none, connectFails := false, sendFails := false, monotonicNs := 0 }
      = { err := none,
          state := { debug := false, sock := none, socket_path := none, socket := none,
                     version := "0.4.0-rc".data },
          sent := [] } :=
  (c4_unconnected_noop
    { notifySocket := none, connectFails := false, sendFails := false, monotonicNs := 0 }
    { notifySocket := none, connectFails := false, sendFails := false, monotonicNs := 0 }
    false _ (Or.inl rfl) rfl [1] (by decide) [] 0).2.2.1

/-- C5: address resolution is the pure function `resolveNotifySocket`: a
leading `@` is replaced by a NUL byte with the remainder preserved, a leading
`/` leaves the address unchanged; and a successful construction connects the
socket to exactly that resolved target (also stored back in
`socket_path`). -/
theorem c5_resolution_pure (rest : List Char) (env : Env) (debug : Bool)
    (hok : env.connectFails = false) :
    resolveNotifySocket ('@' :: rest) = '\x00' :: rest ∧
    resolveNotifySocket ('/' :: rest) = '/' :: rest ∧
    (env.notifySocket = some ('@' :: rest) →
      SystemdNotifier.init env debug =
        .ok { debug := debug, sock := some { peer := some ('\x00' :: rest) },
              socket_path := some ('\x00' :: rest), socket := none,
              version := "0.4.0-rc".data }) ∧
    (env.notifySocket = some ('/' :: rest) →
      SystemdNotifier.init env debug =
        .ok { debug := debug, sock := some { peer := some ('/' :: rest) },
              socket_path := some ('/' :: rest), socket := none,
              version := "0.4.0-rc".data }) := by
  refine ⟨rfl, by simp [resolveNotifySocket], ?_, ?_⟩ <;>
    (intro haddr
     unfold SystemdNotifier.init
     rw [haddr]
     simp [hok, resolveNotifySocket])

/-- C5 witness: resolution and connection for the concrete addresses `"@a"`
and `"/a"`. -/
theorem c5_witness :
    SystemdNotifier.init
      { notifySocket := some ['@', 'a'], connectFails := false, sendFails := false,
        monotonicNs := 0 } false
      = .ok { debug := false, sock := some { peer := some ['\x00', 'a'] },
              socket_path := some ['\x00', 'a'], socket := none,
              version := "0.4.0-rc".data } :=
  (c5_resolution_pure ['a']
    { notifySocket := some ['@', 'a'], connectFails := false, sendFails := false,
      monotonicNs := 0 } false rfl).2.2.1 rfl

/-- C6: on a connected client, a failing send transmits nothing, raises
`SendFailure` exactly when `debug` is set, and leaves the state (in
particular the connection) unchanged. -/
theorem c6_send_failure_state_unchanged (st : SystemdNotifier) (env : Env) (s : Sock)
    (p : List Char) (m : List Nat) (hs : st.sock = some s) (_hp : s.peer = some p)
    (hf : env.sendFails = true) (hm : m ≠ []) :
    st.notify env m =
      { err := if st.debug then some Err.sendFailure else none, state := st,
        sent := [] } := by
  unfold SystemdNotifier.notify
  rw [hs]
  simp only [hm, if_false, hf, or_true, if_true]
  cases st.debug <;> simp

/-- C6 witness: a failing send on a connected client with `debug=True` raises
`SendFailure` and leaves the state unchanged. -/
theorem c6_witness :
    ({ debug := true, sock := some { peer := some ['/', 'q'] },
       socket_path := some ['/', 'q'], socket := none,
       version := "0.4.0-rc".data } : SystemdNotifier).notify
      { notifySocket := some ['/', 'q'], connectFails := false, sendFails := true,
        monotonicNs := 0 } [65]
      = { err := some Err.sendFailure,
          state := { debug := true, sock := some { peer := some ['/', 'q'] },
                     socket_path := some ['/', 'q'], socket := none,
                     version := "0.4.0-rc".data },
          sent := [] } := by
  have h := c6_send_failure_state_unchanged
    { debug := true, sock := some { peer := some ['/', 'q'] },
      socket_path := some ['/', 'q'], socket := none, version := "0.4.0-rc".data }
    { notifySocket := some ['/', 'q'], connectFails := false, sendFails := true,
      monotonicNs := 0 }
    { peer := some ['/', 'q'] } ['/', 'q'] [65] rfl rfl rfl (by decide)
  simpa using h

lemma digitChar_isDigit {d : Nat} (h : d < 10) : (Nat.digitChar d).isDigit = true := by
  interval_cases d <;> decide

lemma toDigitsCore_isDigit (f : Nat) : ∀ (n : Nat) (l : List Char),
    (∀ c ∈ l, c.isDigit = true) →
    ∀ c ∈ Nat.toDigitsCore 10 f n l, c.isDigit = true := by
  induction f with
  | zero => intro n l hl; exact hl
  | succ f ih =>
    intro n l hl c hc
    simp only [Nat.toDigitsCore] at hc
    have hcons : ∀ c ∈ (Nat.digitChar (n % 10) :: l), c.isDigit = true := by
      intro c hc'
      rcases List.mem_cons.mp hc' with h | h
      · subst h; exact digitChar_isDigit (Nat.mod_lt _ (by decide))
      · exact hl c h
    split at hc
    · exact hcons c hc
    · exact ih (n / 10) _ hcons c hc

/-- Every character of the decimal rendering of a natural number is a
digit. -/
lemma repr_chars_isDigit (n : Nat) : ∀ c ∈ (Nat.repr n).data, c.isDigit = true := by
  intro c hc
  have hdata : (Nat.repr n).data = Nat.toDigitsCore 10 (n + 1) n [] := rfl
  rw [hdata] at hc
  exact toDigitsCore_isDigit (n + 1) n [] (by simp) c hc

/-- C7: `reloading()` on a connected client with a working channel transmits
exactly one datagram, `RELOADING=1`, a line feed, then `MONOTONIC_USEC=`
followed by the decimal digits of the monotonic clock reading divided down to
microseconds (a natural number, hence non-negative), with no trailing
separator; and every character after `MONOTONIC_USEC=` is a decimal digit. -/
theorem c7_reloading_payload (st : SystemdNotifier) (env : Env) (s : Sock)
    (p : List Char) (hs : st.sock = some s) (hp : s.peer = some p)
    (hf : env.sendFails = false) :
    st.reloading env =
      { err := none, state := st,
        sent := [utf8 ("RELOADING=1".data ++ '\n' :: "MONOTONIC_USEC=".data
                       ++ (Nat.repr (env.monotonicNs / 1000)).data)] } ∧
    ∀ c ∈ (Nat.repr (env.monotonicNs / 1000)).data, c.isDigit = true := by
  constructor
  · unfold SystemdNotifier.reloading SystemdNotifier.notify
    rw [hs]
    have hsplit : "RELOADING=1\nMONOTONIC_USEC=".data
        = "RELOADING=1".data ++ '\n' :: "MONOTONIC_USEC=".data := by decide
    have hne : utf8 ("RELOADING=1\nMONOTONIC_USEC=".data
        ++ (Nat.repr (env.monotonicNs / 1000)).data) ≠ [] :=
      utf8_ne_nil (append_left_ne_nil (by decide))
    simp only [hne, if_false, hp, hf]
    simp [hsplit, List.append_assoc]
  · exact repr_chars_isDigit _

/-- C7 witness: `reloading()` with a monotonic clock reading of 123456 ns on a
connected client transmits `RELOADING=1\nMONOTONIC_USEC=123`. -/
theorem c7_witness :
    ({ debug := false, sock := some { peer := some ['/', 'q'] },
       socket_path := some ['/', 'q'], socket := none,
       version := "0.4.0-rc".data } : SystemdNotifier).reloading
      { notifySocket := some ['/', 'q'], connectFails := false, sendFails := false,
        monotonicNs := 123456 }
      = { err := none,
          state := { debug := false, sock := some { peer := some ['/', 'q'] },
                     socket_path := some ['/', 'q'], socket := none,
                     version := "0.4.0-rc".data },
          sent := [utf8 "RELOADING=1\nMONOTONIC_USEC=123".data] } := by
  have h := (c7_reloading_payload
    { debug := false, sock := some { peer := some ['/', 'q'] },
      socket_path := some ['/', 'q'], socket := none, version := "0.4.0-rc".data }
    { notifySocket := some ['/', 'q'], connectFails := false, sendFails := false,
      monotonicNs := 123456 }
    { peer := some ['/', 'q'] } ['/', 'q'] rfl rfl rfl).1
  rw [h]
  decide

/-- C8: `status(text)` on a connected client with a working channel transmits
exactly one datagram whose bytes are `STATUS=` followed by the UTF-8 encoding
of `text` verbatim: no validation, no alteration (embedded line breaks
included, since `text` is arbitrary). -/
theorem c8_status_verbatim (st : SystemdNotifier) (env : Env) (s : Sock)
    (p : List Char) (txt : List Char) (hs : st.sock = some s)
    (hp : s.peer = some p) (hf : env.sendFails = false) :
    st.status env txt =
      { err := none, state := st, sent := [utf8 "STATUS=".data ++ utf8 txt] } := by
  unfold SystemdNotifier.status SystemdNotifier.notify
  rw [utf8_append]
  have hne : utf8 "STATUS=".data ++ utf8 txt ≠ [] :=
    append_left_ne_nil (by decide)
  rw [hs]
  simp [hne, hp, hf]

/-- C8 witness: `status("Completed 50%")` transmits exactly
`STATUS=Completed 50%`. -/
theorem c8_witness :
    ({ debug := false, sock := some { peer := some ['/', 'q'] },
       socket_path := some ['/', 'q'], socket := none,
       version := "0.4.0-rc".data } : SystemdNotifier).status
      { notifySocket := some ['/', 'q'], connectFails := false, sendFails := false,
        monotonicNs := 0 }
      "Completed 50%".data
      = { err := none,
          state := { debug := false, sock := some { peer := some ['/', 'q'] },
                     socket_path := some ['/', 'q'], socket := none,
                     version := "0.4.0-rc".data },
          sent := [utf8 "STATUS=Completed 50%".data] } := by
  have h := c8_status_verbatim
    { debug := false, sock := some { peer := some ['/', 'q'] },
      socket_path := some ['/', 'q'], socket := none, version := "0.4.0-rc".data }
    { notifySocket := some ['/', 'q'], connectFails := false, sendFails := false,
      monotonicNs := 0 }
    { peer := some ['/', 'q'] } ['/', 'q'] "Completed 50%".data rfl rfl rfl
  rw [h]
  decide

/-- C9 counterexample: the `SystemdNotifier` class defines no method named
`close`, so the claimed explicit close operation does not exist. -/
theorem c9_counterexample : ¬ ("close" ∈ SystemdNotifier.methodNames) := by
  decide

/-- C9 (amended): the client supports no explicit close operation — the class
defines neither `close` nor any teardown dunder (`__del__`, `__exit__`,
`__enter__`); socket teardown happens only implicitly at process exit. -/
theorem c9_no_close_operation :
    (SystemdNotifier.methodNames.all fun m =>
      m != "close" && m != "__del__" && m != "__exit__" && m != "__enter__") = true := by
  decide

/-- C10: the module-level statement `sd_notify = SystemdNotifier()` constructs
a client with the default `debug=False` at import time; when `NOTIFY_SOCKET`
is present with a first character that is neither `/` nor `@` the import
raises `UnsupportedAddressKind` (the raise is unconditional), and for every
other value of `NOTIFY_SOCKET` (absent, empty, leading `/`, leading `@`)
the module loads successfully, connect failures being swallowed under
`debug=False`. -/
theorem c10_import_behaviour (env : Env) :
    (∀ c rest, env.notifySocket = some (c :: rest) → c ≠ '/' → c ≠ '@' →
        sd_notify env = .error .unsupportedAddressKind) ∧
    (env.notifySocket = none → ∃ st, sd_notify env = .ok st) ∧
    (env.notifySocket = some [] → ∃ st, sd_notify env = .ok st) ∧
    (∀ rest, env.notifySocket = some ('/' :: rest) → ∃ st, sd_notify env = .ok st) ∧
    (∀ rest, env.notifySocket = some ('@' :: rest) → ∃ st, sd_notify env = .ok st) := by
  refine ⟨?_, ?_, ?_, ?_, ?_⟩
  · intro c rest haddr h1 h2
    exact init_bad_kind env c rest false haddr h1 h2
  · intro h
    exact ⟨_, init_no_addr env false (Or.inl h)⟩
  · intro h
    exact ⟨_, init_no_addr env false (Or.inr h)⟩
  · intro rest h
    exact init_nodebug_ok env '/' rest h (Or.inl rfl)
  · intro rest h
    exact init_nodebug_ok env '@' rest h (Or.inr rfl)

/-- C10 witness: importing with `NOTIFY_SOCKET="x"` raises, and importing with
`NOTIFY_SOCKET="/t"` succeeds even though the connect fails. -/
theorem c10_witness :
    sd_notify
      { notifySocket := some ['x'], connectFails := false, sendFails := false,
        monotonicNs := 0 }
      = .error .unsupportedAddressKind ∧
    (∃ st, sd_notify
      { notifySocket := some ['/', 't'], connectFails := true, sendFails := false,
        monotonicNs := 0 }
      = .ok st) :=
  ⟨(c10_import_behaviour _).1 'x' [] rfl (by decide) (by decide),
   (c10_import_behaviour _).2.2.2.1 ['t'] rfl⟩
